import Mathlib

/-!
# Shallow embedding of the `s3-csv-viewer` extension

This file models the retrieval pipeline of the `s3-csv-viewer` VS Code
extension (`src/extension.ts`, together with the earlier variant of the
module embedded in `README.md`, which contains the bucket/key discovery
flow `pickAndOpenS3File` / `openS3FileInEditor`).

Modelling conventions:

* The local filesystem is a map `String → Option Bytes` (path to content).
  `fs.createWriteStream` followed by piping the subprocess stdout is a
  single write of the concatenated chunks; `fs.unlink` removes the entry
  (the model assumes the unlink syscall itself succeeds, i.e. no external
  process races with the cleanup, matching the "best-effort" reading of
  the cleanup code).
* Subprocess behaviour is an oracle value `TransferOutcome` (spawn error,
  sink-write error after some bytes, or exit with collected stdout chunks,
  stderr text and exit code — `none` models a `null` exit code).
* VS Code UI calls, process spawns and document opens are recorded in an
  event trace (`List Event`), so "no subprocess is spawned" and
  "no error message is shown" are statements about the trace.
* JS string operations are modelled on `String.data`:
  `s.startsWith(p)` is `p.data.isPrefixOf s.data`, `s.trim()` drops
  leading/trailing whitespace characters, and template interpolation of
  `Date.now()` is the decimal rendering `natDec` of a natural-number
  timestamp.
* `path.basename` is the POSIX basename algorithm (drop trailing `/`,
  then take the part after the last `/`); `path.join(tmpdir, name)` is
  `tmpdir ++ "/" ++ name` (the joined `name` never contains a separator
  or dot segments, so no normalisation applies).
-/

namespace S3CsvViewer

/-- File content, one `Nat` per byte. -/
abbrev Bytes := List Nat

/-- The local filesystem: a map from paths to file contents. -/
def Fs := String → Option Bytes

/-- Create or overwrite the file at `p` with `content`. -/
def Fs.write (fs : Fs) (p : String) (content : Bytes) : Fs :=
  fun q => if q = p then some content else fs q

/-- Remove the file at `p` (models `fs.unlink`; an already-absent file
stays absent, matching the swallowed `ENOENT`). -/
def Fs.unlink (fs : Fs) (p : String) : Fs :=
  fun q => if q = p then none else fs q

/-- Observable actions of a run: subprocess invocations and VS Code UI calls. -/
inductive Event where
  /-- `child_process.spawn` of the streaming `aws s3 cp` transfer. -/
  | spawn (cmd : String) (args : List String) (envExtras : List (String × String))
  /-- `child_process.execFile` used by the buffered `runAwsCli`. -/
  | execFileCall (cmd : String) (args : List String) (envExtras : List (String × String))
  /-- `vscode.window.showInputBox` (the S3-URI text entry). -/
  | showInputBox
  /-- `vscode.window.showQuickPick` with the offered items. -/
  | showQuickPick (items : List String) (placeHolder : String)
  /-- `vscode.window.showErrorMessage`. -/
  | showErrorMessage (msg : String)
  /-- `vscode.window.setStatusBarMessage`. -/
  | statusBarMessage (msg : String)
  /-- `vscode.workspace.openTextDocument` on a local path. -/
  | openTextDocument (path : String)
  /-- `vscode.commands.registerCommand`. -/
  | registerCommand (cmdId : String)
  deriving DecidableEq, Repr

/-- Oracle describing how one streaming `aws s3 cp` subprocess behaves. -/
inductive TransferOutcome where
  /-- The child process `error` event fired (spawn failure). -/
  | spawnError (msg : String)
  /-- The write stream `error` event fired after `written` bytes reached the file. -/
  | sinkError (written : Bytes) (msg : String)
  /-- The child exited (`close` event) after writing `chunks` to its stdout
  pipe, with accumulated stderr text and exit code (`none` = `null`). -/
  | exited (chunks : List Bytes) (stderrText : String) (code : Option Int)
  deriving DecidableEq, Repr

/-- A transfer outcome the code treats as failure: spawn error, sink error,
or an exit code other than `0`. -/
def TransferOutcome.failed : TransferOutcome → Bool
  | .spawnError _ => true
  | .sinkError _ _ => true
  | .exited _ _ code => !(code == some 0)

/-- Rendering of the (possibly `null`) exit code inside the error message. -/
def codeText : Option Int → String
  | some c => toString c
  | none => "null"

/-- `process.platform === "win32" ? "aws.exe" : "aws"`. -/
def awsCmdName (win32 : Bool) : String :=
  if win32 then "aws.exe" else "aws"

/-- Model of `s.trim()`: drop leading and trailing whitespace. -/
def trimData (s : String) : String :=
  ⟨((s.data.dropWhile Char.isWhitespace).reverse.dropWhile Char.isWhitespace).reverse⟩

/-- Model of POSIX `path.basename`: drop trailing slashes, then keep the
part after the last remaining slash. -/
def posixBasename (p : String) : String :=
  ⟨((p.data.reverse.dropWhile fun c => c == '/').takeWhile fun c => !(c == '/')).reverse⟩

/-- One step of the decimal rendering; the first argument is recursion fuel. -/
def natDecAux : Nat → Nat → List Char
  | 0, _ => []
  | fuel+1, n => if n = 0 then [] else natDecAux fuel (n / 10) ++ [Nat.digitChar (n % 10)]

/-- Decimal rendering of a natural number: the model of JS template
interpolation of the `Date.now()` timestamp. -/
def natDec (n : Nat) : String :=
  if n = 0 then "0" else ⟨natDecAux n n⟩

/-- JS truthiness of an optional string: `undefined` and `""` are falsy. -/
def jsTruthyStr : Option String → Bool
  | none => false
  | some s => !(s == "")

/-- The `envExtras` record built by `fetchCsvToTemp` / `pickAndOpenS3File`:
`AWS_PROFILE` (resp. `AWS_REGION`) is added exactly when the field is a
present, non-empty string. -/
def buildEnvExtras (profile region : Option String) : List (String × String) :=
  (if jsTruthyStr profile then [("AWS_PROFILE", profile.getD "")] else [])
    ++ (if jsTruthyStr region then [("AWS_REGION", region.getD "")] else [])

/-- Argument list of the streaming copy:
`["s3", "cp", s3Uri, "-", "--no-progress", "--only-show-errors"]`. -/
def awsCpArgs (s3Uri : String) : List String :=
  ["s3", "cp", s3Uri, "-", "--no-progress", "--only-show-errors"]

/-- `awsS3CpToFile(s3Uri, destPath, envExtras)`: spawn `aws s3 cp … -`,
pipe stdout into a write stream at `destPath`, and settle the promise from
the stream/child events.  Returns the filesystem after the call, the
rejection message (`none` on success), and the event trace. -/
def awsS3CpToFile (fs : Fs) (win32 : Bool) (s3Uri destPath : String)
    (envExtras : List (String × String)) (outcome : TransferOutcome) :
    Fs × Option String × List Event :=
  let spawnEv := Event.spawn (awsCmdName win32) (awsCpArgs s3Uri) envExtras
  match outcome with
  | TransferOutcome.spawnError msg =>
      (fs.write destPath [], some msg, [spawnEv])
  | TransferOutcome.sinkError written msg =>
      (fs.write destPath written, some msg, [spawnEv])
  | TransferOutcome.exited chunks stderrText code =>
      (fs.write destPath chunks.flatten,
       if code = some 0 then none
       else some ("AWS CLI exited with code " ++ codeText code ++ ": "
                    ++ trimData stderrText),
       [spawnEv])

/-- The syntactic locator check of `fetchCsvToTemp`:
`!(!s3Uri || !s3Uri.startsWith("s3://"))`. -/
def validS3Uri (s : String) : Bool :=
  !(s == "") && "s3://".data.isPrefixOf s.data

/-- The validation error message thrown by `fetchCsvToTemp`. -/
def validationMsg : String :=
  "Please provide a valid S3 URI (e.g., s3://bucket/key.csv)."

/-- The temporary path computed by `fetchCsvToTemp`:
`path.join(os.tmpdir(), "s3-csv-viewer-" + Date.now() + "-" + fileName)`
with `fileName = path.basename(s3Uri) || "s3.csv"`. -/
def tempPathFor (tmpdir : String) (now : Nat) (s3Uri : String) : String :=
  tmpdir ++ "/" ++ ("s3-csv-viewer-" ++ natDec now ++ "-"
    ++ (if posixBasename s3Uri = "" then "s3.csv" else posixBasename s3Uri))

/-- `fetchCsvToTemp(s3Uri, profile, region)`: validate the locator, build
the environment overrides, derive the temporary path, run the streaming
copy, and on failure unlink the partial file before re-throwing.
Returns the filesystem after the call, the result (`ok` local path or
`error` message), and the event trace. -/
def fetchCsvToTemp (fs : Fs) (win32 : Bool) (tmpdir : String) (now : Nat)
    (s3Uri : String) (profile region : Option String) (outcome : TransferOutcome) :
    Fs × Except String String × List Event :=
  if !(validS3Uri s3Uri) then
    (fs, Except.error validationMsg, [])
  else
    let envExtras := buildEnvExtras profile region
    let tmpPath := tempPathFor tmpdir now s3Uri
    match awsS3CpToFile fs win32 s3Uri tmpPath envExtras outcome with
    | (fs1, none, evs) => (fs1, Except.ok tmpPath, evs)
    | (fs1, some e, evs) => (fs1.unlink tmpPath, Except.error e, evs)

/-- VS Code configuration of the extension; `none` models an unset key. -/
structure Config where
  s3Uri : Option String := none
  awsProfile : Option String := none
  awsRegion : Option String := none
  autoOpenOnStartup : Option Bool := none
  deriving Repr

/-- `cfg.get<string>(key)?.trim() || ""`. -/
def cfgTrimOrEmpty : Option String → String
  | none => ""
  | some s => trimData s

/-- `openCsvFromS3(context, uriFromInput)`: resolve the S3 URI from the
explicit argument, the configured default, or the input box (in that
order, skipping falsy values); bail out silently when no URI results;
otherwise fetch to a temporary file and open it, reporting any error via
`showErrorMessage`.  `inputBoxAnswer` is the oracle for the input box
(`none` = the user cancelled); the document viewer is modelled as
non-failing. -/
def openCsvFromS3 (fs : Fs) (win32 : Bool) (cfg : Config)
    (uriFromInput : Option String) (inputBoxAnswer : Option String)
    (tmpdir : String) (now : Nat) (outcome : TransferOutcome) :
    Fs × List Event :=
  let configuredUri := cfgTrimOrEmpty cfg.s3Uri
  let profile := cfgTrimOrEmpty cfg.awsProfile
  let region := cfgTrimOrEmpty cfg.awsRegion
  let direct : String :=
    match uriFromInput with
    | none => configuredUri
    | some s => if s = "" then configuredUri else s
  let resolved : Option String × List Event :=
    if direct = "" then (inputBoxAnswer, [Event.showInputBox])
    else (some direct, [])
  match resolved with
  | (s3UriOpt, evs0) =>
    match s3UriOpt with
    | none => (fs, evs0)
    | some u =>
      if u = "" then (fs, evs0)
      else
        match fetchCsvToTemp fs win32 tmpdir now u (some profile) (some region) outcome with
        | (fs1, Except.ok tmpPath, evs1) =>
            (fs1, evs0 ++ evs1 ++ [Event.openTextDocument tmpPath,
                    Event.statusBarMessage ("S3 CSV loaded: " ++ u)])
        | (fs1, Except.error e, evs1) =>
            (fs1, evs0 ++ evs1 ++ [Event.showErrorMessage ("Failed to load CSV. " ++ e)])

/-- `activate(context)`: register the command, then — when the
`autoOpenOnStartup` setting is truthy — run `openCsvFromS3` once,
discarding the returned promise's rejection (`.catch(() => given))`). -/
def activate (fs : Fs) (win32 : Bool) (cfg : Config)
    (inputBoxAnswer : Option String) (tmpdir : String) (now : Nat)
    (outcome : TransferOutcome) : Fs × List Event :=
  let reg := Event.registerCommand "s3CsvViewer.openCsvFromS3"
  if cfg.autoOpenOnStartup.getD false then
    match openCsvFromS3 fs win32 cfg none inputBoxAnswer tmpdir now outcome with
    | (fs1, evs) => (fs1, reg :: evs)
  else (fs, [reg])

/-! ### The README variant (discovery flow) -/

/-- The decoded `list-objects-v2` response: `Contents` is the array of
entries, each represented by its `Key` field; `none` models a response in
which the `Contents` field is absent (empty bucket). -/
structure ListObjectsResponse where
  Contents : Option (List String)
  deriving DecidableEq, Repr

/-- `(dataObjs.Contents || []).map((o) => o.Key)`: an absent `Contents`
field yields the empty list rather than an error. -/
def listKeysOf (r : ListObjectsResponse) : List String :=
  r.Contents.getD []

/-- Argument list of the buffered bucket listing. -/
def listBucketsArgs : List String :=
  ["s3api", "list-buckets", "--output", "json"]

/-- Argument list of the buffered key listing for one bucket. -/
def listObjectsArgs (bucket : String) : List String :=
  ["s3api", "list-objects-v2", "--bucket", bucket, "--output", "json"]

/-- README variant `openS3FileInEditor(s3Uri, profile, region)`: no
validation, temporary name `s3-viewer-<now>-<basename>` (no fallback for
an empty basename), and no cleanup of the partial file on failure — the
error simply propagates to the caller. -/
def openS3FileInEditor (fs : Fs) (win32 : Bool) (tmpdir : String) (now : Nat)
    (s3Uri : String) (profile region : Option String) (outcome : TransferOutcome) :
    Fs × Except String Unit × List Event :=
  let envExtras := buildEnvExtras profile region
  let fileName := posixBasename s3Uri
  let tmpPath := tmpdir ++ "/" ++ ("s3-viewer-" ++ natDec now ++ "-" ++ fileName)
  match awsS3CpToFile fs win32 s3Uri tmpPath envExtras outcome with
  | (fs1, none, evs) =>
      (fs1, Except.ok (), evs ++ [Event.openTextDocument tmpPath,
              Event.statusBarMessage ("S3 File loaded: " ++ s3Uri)])
  | (fs1, some e, evs) => (fs1, Except.error e, evs)

/-- README variant `pickAndOpenS3File(context)`: list buckets, let the
user pick one, list its keys, let the user pick one, then download and
open `s3://bucket/key`; any thrown error is reported as
`Error: <message>`; a cancelled QuickPick returns silently.
`bucketsResult` / `objectsResult` are oracles for the buffered
`runAwsCli` calls combined with JSON decoding; `bucketPick` / `keyPick`
are the QuickPick selections (`none` = cancelled). -/
def pickAndOpenS3File (fs : Fs) (win32 : Bool) (cfg : Config)
    (tmpdir : String) (now : Nat)
    (bucketsResult : Except String (List String)) (bucketPick : Option String)
    (objectsResult : Except String ListObjectsResponse) (keyPick : Option String)
    (outcome : TransferOutcome) : Fs × List Event :=
  let profile := cfg.awsProfile.map trimData
  let region := cfg.awsRegion.map trimData
  let env := buildEnvExtras profile region
  let ev1 := Event.execFileCall (awsCmdName win32) listBucketsArgs env
  match bucketsResult with
  | Except.error e => (fs, [ev1, Event.showErrorMessage ("Error: " ++ e)])
  | Except.ok buckets =>
    let ev2 := Event.showQuickPick buckets "Select an S3 bucket"
    match bucketPick with
    | none => (fs, [ev1, ev2])
    | some bucket =>
      let ev3 := Event.execFileCall (awsCmdName win32) (listObjectsArgs bucket) env
      match objectsResult with
      | Except.error e => (fs, [ev1, ev2, ev3, Event.showErrorMessage ("Error: " ++ e)])
      | Except.ok resp =>
        let keys := listKeysOf resp
        let ev4 := Event.showQuickPick keys ("Select file from " ++ bucket)
        match keyPick with
        | none => (fs, [ev1, ev2, ev3, ev4])
        | some key =>
          let s3Uri := "s3://" ++ bucket ++ "/" ++ key
          match openS3FileInEditor fs win32 tmpdir now s3Uri profile region outcome with
          | (fs1, Except.ok _, evs) => (fs1, [ev1, ev2, ev3, ev4] ++ evs)
          | (fs1, Except.error e, evs) =>
              (fs1, [ev1, ev2, ev3, ev4] ++ evs
                      ++ [Event.showErrorMessage ("Error: " ++ e)])

end S3CsvViewer

namespace S3CsvViewer

/-! ## Helper lemmas -/

theorem eq_flip_and_ne {v p : String} (hp : ¬ p = "") :
    (v = p) ↔ (p = v ∧ ¬ v = "") := by
  constructor
  · rintro rfl; exact ⟨rfl, hp⟩
  · rintro ⟨rfl, _⟩; rfl

theorem awsS3CpToFile_trace (fs : Fs) (win32 : Bool) (s3Uri destPath : String)
    (envExtras : List (String × String)) (outcome : TransferOutcome) :
    (awsS3CpToFile fs win32 s3Uri destPath envExtras outcome).2.2 =
      [Event.spawn (awsCmdName win32) (awsCpArgs s3Uri) envExtras] := by
  cases outcome <;> simp [awsS3CpToFile]

theorem mem_buildEnvExtras_profile (profile region : Option String) (v : String) :
    (("AWS_PROFILE", v) ∈ buildEnvExtras profile region) ↔
      (profile = some v ∧ ¬ v = "") := by
  cases profile with
  | none =>
      cases region with
      | none => simp [buildEnvExtras, jsTruthyStr]
      | some r => by_cases hr : r = "" <;> simp [buildEnvExtras, jsTruthyStr, hr]
  | some p =>
      by_cases hp : p = ""
      · cases region with
        | none =>
            simp [buildEnvExtras, jsTruthyStr, hp]
            exact fun h => h.symm
        | some r =>
            by_cases hr : r = "" <;> simp [buildEnvExtras, jsTruthyStr, hp, hr] <;>
              exact fun h => h.symm
      · cases region with
        | none =>
            simp [buildEnvExtras, jsTruthyStr, hp]
            exact eq_flip_and_ne hp
        | some r =>
            by_cases hr : r = "" <;> simp [buildEnvExtras, jsTruthyStr, hp, hr] <;>
              exact eq_flip_and_ne hp

theorem mem_buildEnvExtras_region (profile region : Option String) (v : String) :
    (("AWS_REGION", v) ∈ buildEnvExtras profile region) ↔
      (region = some v ∧ ¬ v = "") := by
  cases region with
  | none =>
      cases profile with
      | none => simp [buildEnvExtras, jsTruthyStr]
      | some p => by_cases hp : p = "" <;> simp [buildEnvExtras, jsTruthyStr, hp]
  | some r =>
      by_cases hr : r = ""
      · cases profile with
        | none =>
            simp [buildEnvExtras, jsTruthyStr, hr]
            exact fun h => h.symm
        | some p =>
            by_cases hp : p = "" <;> simp [buildEnvExtras, jsTruthyStr, hp, hr] <;>
              exact fun h => h.symm
      · cases profile with
        | none =>
            simp [buildEnvExtras, jsTruthyStr, hr]
            exact eq_flip_and_ne hr
        | some p =>
            by_cases hp : p = "" <;> simp [buildEnvExtras, jsTruthyStr, hp, hr] <;>
              exact eq_flip_and_ne hr

/-! ## Claims about the transfer primitive -/

/-- C1: for every failed transfer through a valid locator — spawn failure,
sink-write failure (even after bytes were written), or subprocess exit with
a code other than `0` — `fetchCsvToTemp` surfaces an error and the
destination temporary path does not exist in the filesystem it returns:
the partial file is unlinked before the error is re-thrown. -/
theorem claim_C1 (fs : Fs) (win32 : Bool) (tmpdir : String) (now : Nat)
    (s3Uri : String) (profile region : Option String) (outcome : TransferOutcome)
    (hval : validS3Uri s3Uri = true) (hfail : outcome.failed = true) :
    (fetchCsvToTemp fs win32 tmpdir now s3Uri profile region outcome).1
        (tempPathFor tmpdir now s3Uri) = none ∧
      ∃ e, (fetchCsvToTemp fs win32 tmpdir now s3Uri profile region outcome).2.1 =
        Except.error e := by
  cases outcome with
  | spawnError msg =>
      exact ⟨by simp [fetchCsvToTemp, hval, awsS3CpToFile, Fs.unlink],
             msg, by simp [fetchCsvToTemp, hval, awsS3CpToFile]⟩
  | sinkError written msg =>
      exact ⟨by simp [fetchCsvToTemp, hval, awsS3CpToFile, Fs.unlink],
             msg, by simp [fetchCsvToTemp, hval, awsS3CpToFile]⟩
  | exited chunks stderrText code =>
      have hc : ¬ code = some 0 := by
        simpa [TransferOutcome.failed] using hfail
      exact ⟨by simp [fetchCsvToTemp, hval, awsS3CpToFile, hc, Fs.unlink],
             "AWS CLI exited with code " ++ codeText code ++ ": " ++ trimData stderrText,
             by simp [fetchCsvToTemp, hval, awsS3CpToFile, hc]⟩

theorem claim_C1_witness :
    (fetchCsvToTemp (fun _ => none) false "/tmp" 1 "s3://b/x.csv" none none
        (TransferOutcome.exited [[104]] "denied" (some 2))).1
        (tempPathFor "/tmp" 1 "s3://b/x.csv") = none ∧
      ∃ e, (fetchCsvToTemp (fun _ => none) false "/tmp" 1 "s3://b/x.csv" none none
        (TransferOutcome.exited [[104]] "denied" (some 2))).2.1 = Except.error e :=
  claim_C1 (fun _ => none) false "/tmp" 1 "s3://b/x.csv" none none
    (TransferOutcome.exited [[104]] "denied" (some 2)) (by decide) (by decide)

/-- C2: for every transfer through a valid locator in which the subprocess
exits with code `0`, `fetchCsvToTemp` succeeds with the derived temporary
path, and in the resulting filesystem that path holds exactly the
in-order concatenation of the chunks the subprocess wrote to stdout. -/
theorem claim_C2 (fs : Fs) (win32 : Bool) (tmpdir : String) (now : Nat)
    (s3Uri : String) (profile region : Option String)
    (chunks : List Bytes) (stderrText : String)
    (hval : validS3Uri s3Uri = true) :
    (fetchCsvToTemp fs win32 tmpdir now s3Uri profile region
        (TransferOutcome.exited chunks stderrText (some 0))).2.1 =
      Except.ok (tempPathFor tmpdir now s3Uri) ∧
    (fetchCsvToTemp fs win32 tmpdir now s3Uri profile region
        (TransferOutcome.exited chunks stderrText (some 0))).1
        (tempPathFor tmpdir now s3Uri) = some chunks.flatten := by
  constructor <;> simp [fetchCsvToTemp, hval, awsS3CpToFile, Fs.write]

theorem claim_C2_witness :
    (fetchCsvToTemp (fun _ => none) false "/tmp" 1 "s3://b/x.csv" none none
        (TransferOutcome.exited [[97, 44], [98]] "" (some 0))).2.1 =
      Except.ok (tempPathFor "/tmp" 1 "s3://b/x.csv") ∧
    (fetchCsvToTemp (fun _ => none) false "/tmp" 1 "s3://b/x.csv" none none
        (TransferOutcome.exited [[97, 44], [98]] "" (some 0))).1
        (tempPathFor "/tmp" 1 "s3://b/x.csv") = some ([[97, 44], [98]] : List Bytes).flatten :=
  claim_C2 (fun _ => none) false "/tmp" 1 "s3://b/x.csv" none none
    [[97, 44], [98]] "" (by decide)

/-- C3: for every input that does not start with `s3://` — which includes
the empty string and whitespace-only strings — `fetchCsvToTemp` fails with
the validation error, leaves the filesystem untouched, and spawns no
subprocess (its event trace is empty): validation is purely syntactic and
happens before any process invocation. -/
theorem claim_C3 (fs : Fs) (win32 : Bool) (tmpdir : String) (now : Nat)
    (s3Uri : String) (profile region : Option String) (outcome : TransferOutcome)
    (hnp : "s3://".data.isPrefixOf s3Uri.data = false) :
    fetchCsvToTemp fs win32 tmpdir now s3Uri profile region outcome =
      (fs, Except.error validationMsg, []) := by
  have hval : validS3Uri s3Uri = false := by simp [validS3Uri, hnp]
  simp [fetchCsvToTemp, hval]

theorem claim_C3_witness :
    fetchCsvToTemp (fun _ => none) false "/tmp" 1 "   " none none
        (TransferOutcome.exited [[1]] "" (some 0)) =
      ((fun _ => none), Except.error validationMsg, []) :=
  claim_C3 (fun _ => none) false "/tmp" 1 "   " none none
    (TransferOutcome.exited [[1]] "" (some 0)) (by decide)

/-- C8: for every invocation of `fetchCsvToTemp` on a valid locator, the
environment overrides passed to the spawned subprocess contain
`AWS_PROFILE` bound to `v` iff the profile argument is present and equal
to the non-empty `v`, and likewise `AWS_REGION` for the region argument;
absent or empty fields are omitted rather than set to the empty string. -/
theorem claim_C8 (fs : Fs) (win32 : Bool) (tmpdir : String) (now : Nat)
    (s3Uri : String) (profile region : Option String) (outcome : TransferOutcome)
    (hval : validS3Uri s3Uri = true) :
    ∃ env, (fetchCsvToTemp fs win32 tmpdir now s3Uri profile region outcome).2.2 =
        [Event.spawn (awsCmdName win32) (awsCpArgs s3Uri) env] ∧
      (∀ v, (("AWS_PROFILE", v) ∈ env) ↔ (profile = some v ∧ ¬ v = "")) ∧
      (∀ v, (("AWS_REGION", v) ∈ env) ↔ (region = some v ∧ ¬ v = "")) := by
  refine ⟨buildEnvExtras profile region, ?_, ?_, ?_⟩
  · cases outcome with
    | spawnError msg => simp [fetchCsvToTemp, hval, awsS3CpToFile]
    | sinkError written msg => simp [fetchCsvToTemp, hval, awsS3CpToFile]
    | exited chunks stderrText code =>
        by_cases hc : code = some 0 <;>
          simp [fetchCsvToTemp, hval, awsS3CpToFile, hc]
  · exact fun v => mem_buildEnvExtras_profile profile region v
  · exact fun v => mem_buildEnvExtras_region profile region v

theorem claim_C8_witness :
    ∃ env, (fetchCsvToTemp (fun _ => none) false "/tmp" 1 "s3://b/x.csv"
          (some "dev") (some "") (TransferOutcome.exited [] "" (some 0))).2.2 =
        [Event.spawn (awsCmdName false) (awsCpArgs "s3://b/x.csv") env] ∧
      (∀ v, (("AWS_PROFILE", v) ∈ env) ↔
        ((some "dev" : Option String) = some v ∧ ¬ v = "")) ∧
      (∀ v, (("AWS_REGION", v) ∈ env) ↔
        ((some "" : Option String) = some v ∧ ¬ v = "")) :=
  claim_C8 (fun _ => none) false "/tmp" 1 "s3://b/x.csv" (some "dev") (some "")
    (TransferOutcome.exited [] "" (some 0)) (by decide)

/-! ## Decimal rendering lemmas (for the temporary-path claims) -/

theorem natDecAux_eq_digits (fuel : Nat) : ∀ n : Nat, n ≤ fuel →
    natDecAux fuel n = ((Nat.digits 10 n).map Nat.digitChar).reverse := by
  induction fuel with
  | zero =>
      intro n hn
      have : n = 0 := Nat.le_zero.mp hn
      subst this
      simp [natDecAux]
  | succ fuel ih =>
      intro n hn
      by_cases h0 : n = 0
      · subst h0; simp [natDecAux]
      · have hdiv : n / 10 ≤ fuel := by
          have := Nat.div_lt_self (Nat.pos_of_ne_zero h0) (by norm_num : 1 < 10)
          omega
        rw [natDecAux, if_neg h0, ih (n / 10) hdiv,
          Nat.digits_def' (by norm_num : 1 < 10) (Nat.pos_of_ne_zero h0)]
        simp

theorem natDec_data (n : Nat) :
    (natDec n).data =
      if n = 0 then ['0'] else ((Nat.digits 10 n).map Nat.digitChar).reverse := by
  by_cases h0 : n = 0
  · subst h0; simp [natDec]
  · simp [natDec, h0, natDecAux_eq_digits n n (le_refl n)]

theorem digitChar_inj_below_ten :
    ∀ a, a < 10 → ∀ b, b < 10 → Nat.digitChar a = Nat.digitChar b → a = b := by
  decide

theorem map_digitChar_inj :
    ∀ (l₁ l₂ : List Nat), (∀ x ∈ l₁, x < 10) → (∀ x ∈ l₂, x < 10) →
      l₁.map Nat.digitChar = l₂.map Nat.digitChar → l₁ = l₂ := by
  intro l₁
  induction l₁ with
  | nil =>
      intro l₂ _ _ h
      cases l₂ with
      | nil => rfl
      | cons b t => simp at h
  | cons a t ih =>
      intro l₂ h₁ h₂ h
      cases l₂ with
      | nil => simp at h
      | cons b t₂ =>
          simp only [List.map_cons, List.cons.injEq] at h
          have ha : a < 10 := h₁ a (List.mem_cons_self a t)
          have hb : b < 10 := h₂ b (List.mem_cons_self b t₂)
          have hab := digitChar_inj_below_ten a ha b hb h.1
          have ht := ih t₂ (fun x hx => h₁ x (List.mem_cons_of_mem a hx))
            (fun x hx => h₂ x (List.mem_cons_of_mem b hx)) h.2
          rw [hab, ht]

theorem natDec_inj_data {m n : Nat} (h : (natDec m).data = (natDec n).data) :
    m = n := by
  rw [natDec_data, natDec_data] at h
  by_cases hm : m = 0 <;> by_cases hn : n = 0
  · omega
  · exfalso
    rw [if_pos hm, if_neg hn] at h
    have h' : (Nat.digits 10 n).map Nat.digitChar = ['0'] := by
      have := congrArg List.reverse h
      simpa using this.symm
    cases hds : Nat.digits 10 n with
    | nil => rw [hds] at h'; simp at h'
    | cons d t =>
        rw [hds] at h'
        simp only [List.map_cons, List.cons.injEq, List.map_eq_nil_iff] at h'
        have hd10 : d < 10 :=
          Nat.digits_lt_base (by norm_num) (hds ▸ List.mem_cons_self d t)
        have hd0 : d = 0 :=
          digitChar_inj_below_ten d hd10 0 (by norm_num) (by simpa using h'.1)
        have : n = Nat.ofDigits 10 (Nat.digits 10 n) := (Nat.ofDigits_digits 10 n).symm
        rw [hds, hd0, h'.2] at this
        simp [Nat.ofDigits] at this
        exact hn this
  · exfalso
    rw [if_neg hm, if_pos hn] at h
    have h' : (Nat.digits 10 m).map Nat.digitChar = ['0'] := by
      have := congrArg List.reverse h
      simpa using this
    cases hds : Nat.digits 10 m with
    | nil => rw [hds] at h'; simp at h'
    | cons d t =>
        rw [hds] at h'
        simp only [List.map_cons, List.cons.injEq, List.map_eq_nil_iff] at h'
        have hd10 : d < 10 :=
          Nat.digits_lt_base (by norm_num) (hds ▸ List.mem_cons_self d t)
        have hd0 : d = 0 :=
          digitChar_inj_below_ten d hd10 0 (by norm_num) (by simpa using h'.1)
        have : m = Nat.ofDigits 10 (Nat.digits 10 m) := (Nat.ofDigits_digits 10 m).symm
        rw [hds, hd0, h'.2] at this
        simp [Nat.ofDigits] at this
        exact hm this
  · rw [if_neg hm, if_neg hn] at h
    have h' := List.reverse_inj.mpr h
    simp only [List.reverse_reverse] at h'
    have hdig := map_digitChar_inj (Nat.digits 10 m) (Nat.digits 10 n)
      (fun x hx => Nat.digits_lt_base (by norm_num) hx)
      (fun x hx => Nat.digits_lt_base (by norm_num) hx) h'
    exact Nat.digits_inj_iff.mp hdig

theorem digitChar_ne_dash : ∀ d, d < 10 → Nat.digitChar d ≠ '-' := by decide

theorem dash_not_mem_natDec (n : Nat) : '-' ∉ (natDec n).data := by
  rw [natDec_data]
  by_cases h0 : n = 0
  · rw [if_pos h0]; decide
  · rw [if_neg h0]
    intro hmem
    rw [List.mem_reverse, List.mem_map] at hmem
    obtain ⟨d, hd, hdc⟩ := hmem
    exact digitChar_ne_dash d (Nat.digits_lt_base (by norm_num) hd) hdc

theorem append_sep_eq {c : Char} :
    ∀ (d₁ d₂ r₁ r₂ : List Char), c ∉ d₁ → c ∉ d₂ →
      d₁ ++ c :: r₁ = d₂ ++ c :: r₂ → d₁ = d₂ := by
  intro d₁
  induction d₁ with
  | nil =>
      intro d₂ r₁ r₂ _ h₂ he
      cases d₂ with
      | nil => rfl
      | cons b t =>
          exfalso
          simp only [List.nil_append, List.cons_append, List.cons.injEq] at he
          exact h₂ (he.1 ▸ List.mem_cons_self b t)
  | cons a t ih =>
      intro d₂ r₁ r₂ h₁ h₂ he
      cases d₂ with
      | nil =>
          exfalso
          simp only [List.nil_append, List.cons_append, List.cons.injEq] at he
          exact h₁ (he.1.symm ▸ List.mem_cons_self a t)
      | cons b t₂ =>
          simp only [List.cons_append, List.cons.injEq] at he
          obtain ⟨rfl, he2⟩ := he
          have := ih t₂ r₁ r₂ (fun hm => h₁ (List.mem_cons_of_mem _ hm))
            (fun hm => h₂ (List.mem_cons_of_mem _ hm)) he2
          rw [this]

/-! ## Claims about the temporary path -/

/-- C6 counterexample: two distinct concurrent invocations that observe the
same `Date.now()` millisecond — here, retrievals of two different locators
sharing a basename — derive the *same* temporary path, refuting the claimed
uniqueness. -/
theorem claim_C6_counterexample :
    tempPathFor "/tmp" 1700 "s3://alpha/data.csv" =
      tempPathFor "/tmp" 1700 "s3://beta/data.csv" ∧
    ("s3://alpha/data.csv" : String) ≠ "s3://beta/data.csv" := by
  exact ⟨rfl, by decide⟩

/-- C6 (amended): temporary paths of two invocations are distinct whenever
the invocations observe different `Date.now()` timestamps; same-millisecond
invocations may collide (see the counterexample), so uniqueness rests
entirely on the time-based component. -/
theorem claim_C6_amended (tmpdir : String) (n₁ n₂ : Nat) (u₁ u₂ : String)
    (h : n₁ ≠ n₂) :
    tempPathFor tmpdir n₁ u₁ ≠ tempPathFor tmpdir n₂ u₂ := by
  intro he
  apply h
  apply natDec_inj_data
  have hd := congrArg String.data he
  simp only [tempPathFor, String.data_append, List.append_assoc] at hd
  have hd2 := List.append_cancel_left hd
  have hd3 := List.append_cancel_left hd2
  have hd4 := List.append_cancel_left hd3
  simp only [List.singleton_append] at hd4
  exact append_sep_eq _ _ _ _ (dash_not_mem_natDec n₁) (dash_not_mem_natDec n₂) hd4

theorem claim_C6_witness :
    tempPathFor "/tmp" 1 "s3://b/x.csv" ≠ tempPathFor "/tmp" 2 "s3://b/x.csv" :=
  claim_C6_amended "/tmp" 1 2 "s3://b/x.csv" "s3://b/x.csv" (by decide)

/-- C10: for every valid locator, the temporary path computed by
`fetchCsvToTemp` lies directly inside the system temporary directory and
has the form `s3-csv-viewer-<timestamp>-<name>`, where `<name>` is the
locator's basename when that basename is non-empty and the fixed fallback
`s3.csv` when it is empty; the name contains no path separator. -/
theorem claim_C10 (tmpdir : String) (now : Nat) (s3Uri : String)
    (_hval : validS3Uri s3Uri = true) :
    ∃ nm, tempPathFor tmpdir now s3Uri =
        tmpdir ++ "/" ++ ("s3-csv-viewer-" ++ natDec now ++ "-" ++ nm) ∧
      ((¬ posixBasename s3Uri = "" ∧ nm = posixBasename s3Uri) ∨
       (posixBasename s3Uri = "" ∧ nm = "s3.csv")) ∧
      '/' ∉ nm.data := by
  by_cases hb : posixBasename s3Uri = ""
  · exact ⟨"s3.csv", by simp [tempPathFor, hb], Or.inr ⟨hb, rfl⟩, by decide⟩
  · refine ⟨posixBasename s3Uri, by simp [tempPathFor, hb], Or.inl ⟨hb, rfl⟩, ?_⟩
    intro hmem
    have hmem' : '/' ∈ ((s3Uri.data.reverse.dropWhile fun c => c == '/').takeWhile
        fun c => !(c == '/')).reverse := hmem
    rw [List.mem_reverse] at hmem'
    have := List.mem_takeWhile_imp hmem'
    simp at this

theorem claim_C10_witness :
    ∃ nm, tempPathFor "/tmp" 5 "s3://bucket/key.csv" =
        "/tmp" ++ "/" ++ ("s3-csv-viewer-" ++ natDec 5 ++ "-" ++ nm) ∧
      ((¬ posixBasename "s3://bucket/key.csv" = "" ∧
          nm = posixBasename "s3://bucket/key.csv") ∨
       (posixBasename "s3://bucket/key.csv" = "" ∧ nm = "s3.csv")) ∧
      '/' ∉ nm.data :=
  claim_C10 "/tmp" 5 "s3://bucket/key.csv" (by decide)

/-! ## Claims about the orchestrator -/

theorem fetchCsvToTemp_trace (fs : Fs) (win32 : Bool) (tmpdir : String) (now : Nat)
    (s3Uri : String) (profile region : Option String) (outcome : TransferOutcome)
    (hval : validS3Uri s3Uri = true) :
    (fetchCsvToTemp fs win32 tmpdir now s3Uri profile region outcome).2.2 =
      [Event.spawn (awsCmdName win32) (awsCpArgs s3Uri)
        (buildEnvExtras profile region)] := by
  cases outcome with
  | spawnError msg => simp [fetchCsvToTemp, hval, awsS3CpToFile]
  | sinkError written msg => simp [fetchCsvToTemp, hval, awsS3CpToFile]
  | exited chunks stderrText code =>
      by_cases hc : code = some 0 <;>
        simp [fetchCsvToTemp, hval, awsS3CpToFile, hc]

/-- C4: the locator used for the transfer is resolved in strict priority
order: (a) a non-empty explicit argument — the input box is never shown and
the transfer targets that argument; (b) otherwise a non-empty configured
default; (c) otherwise the input box is shown and, when the user enters a
locator, the transfer targets it.  (The transfer-targeting conjuncts
assume the resolved locator passes validation, since otherwise no
subprocess runs at all.) -/
theorem claim_C4 (fs : Fs) (win32 : Bool) (cfg : Config) (ib : Option String)
    (tmpdir : String) (now : Nat) (o : TransferOutcome) :
    (∀ u, ¬ u = "" → validS3Uri u = true →
      Event.showInputBox ∉ (openCsvFromS3 fs win32 cfg (some u) ib tmpdir now o).2 ∧
      ∃ env, Event.spawn (awsCmdName win32) (awsCpArgs u) env ∈
        (openCsvFromS3 fs win32 cfg (some u) ib tmpdir now o).2) ∧
    (∀ uriIn, (uriIn = none ∨ uriIn = some "") →
      ¬ cfgTrimOrEmpty cfg.s3Uri = "" →
      validS3Uri (cfgTrimOrEmpty cfg.s3Uri) = true →
      Event.showInputBox ∉ (openCsvFromS3 fs win32 cfg uriIn ib tmpdir now o).2 ∧
      ∃ env, Event.spawn (awsCmdName win32) (awsCpArgs (cfgTrimOrEmpty cfg.s3Uri)) env ∈
        (openCsvFromS3 fs win32 cfg uriIn ib tmpdir now o).2) ∧
    (∀ uriIn, (uriIn = none ∨ uriIn = some "") →
      cfgTrimOrEmpty cfg.s3Uri = "" →
      Event.showInputBox ∈ (openCsvFromS3 fs win32 cfg uriIn ib tmpdir now o).2 ∧
      (∀ u, ib = some u → ¬ u = "" → validS3Uri u = true →
        ∃ env, Event.spawn (awsCmdName win32) (awsCpArgs u) env ∈
          (openCsvFromS3 fs win32 cfg uriIn ib tmpdir now o).2)) := by
  refine ⟨?_, ?_, ?_⟩
  · intro u hu hval
    have htr := fetchCsvToTemp_trace fs win32 tmpdir now u
      (some (cfgTrimOrEmpty cfg.awsProfile)) (some (cfgTrimOrEmpty cfg.awsRegion)) o hval
    rcases hfetch : fetchCsvToTemp fs win32 tmpdir now u
        (some (cfgTrimOrEmpty cfg.awsProfile)) (some (cfgTrimOrEmpty cfg.awsRegion)) o
      with ⟨fs1, res, evs1⟩
    rw [hfetch] at htr
    simp only at htr
    refine ⟨?_, buildEnvExtras (some (cfgTrimOrEmpty cfg.awsProfile))
        (some (cfgTrimOrEmpty cfg.awsRegion)), ?_⟩ <;>
      cases res <;> simp [openCsvFromS3, hu, hfetch, htr]
  · intro uriIn hin hc hval
    have htr := fetchCsvToTemp_trace fs win32 tmpdir now (cfgTrimOrEmpty cfg.s3Uri)
      (some (cfgTrimOrEmpty cfg.awsProfile)) (some (cfgTrimOrEmpty cfg.awsRegion)) o hval
    rcases hfetch : fetchCsvToTemp fs win32 tmpdir now (cfgTrimOrEmpty cfg.s3Uri)
        (some (cfgTrimOrEmpty cfg.awsProfile)) (some (cfgTrimOrEmpty cfg.awsRegion)) o
      with ⟨fs1, res, evs1⟩
    rw [hfetch] at htr
    simp only at htr
    rcases hin with rfl | rfl <;>
      (refine ⟨?_, buildEnvExtras (some (cfgTrimOrEmpty cfg.awsProfile))
          (some (cfgTrimOrEmpty cfg.awsRegion)), ?_⟩ <;>
        cases res <;> simp [openCsvFromS3, hc, hfetch, htr])
  · intro uriIn hin hc
    constructor
    · rcases hin with rfl | rfl
      · cases ib with
        | none => simp [openCsvFromS3, hc]
        | some u =>
            by_cases hu : u = ""
            · simp [openCsvFromS3, hc, hu]
            · rcases hfetch : fetchCsvToTemp fs win32 tmpdir now u
                  (some (cfgTrimOrEmpty cfg.awsProfile))
                  (some (cfgTrimOrEmpty cfg.awsRegion)) o
                with ⟨fs1, res, evs1⟩
              cases res <;> simp [openCsvFromS3, hc, hu, hfetch]
      · cases ib with
        | none => simp [openCsvFromS3, hc]
        | some u =>
            by_cases hu : u = ""
            · simp [openCsvFromS3, hc, hu]
            · rcases hfetch : fetchCsvToTemp fs win32 tmpdir now u
                  (some (cfgTrimOrEmpty cfg.awsProfile))
                  (some (cfgTrimOrEmpty cfg.awsRegion)) o
                with ⟨fs1, res, evs1⟩
              cases res <;> simp [openCsvFromS3, hc, hu, hfetch]
    · intro u hibu hu hval
      subst hibu
      have htr := fetchCsvToTemp_trace fs win32 tmpdir now u
        (some (cfgTrimOrEmpty cfg.awsProfile)) (some (cfgTrimOrEmpty cfg.awsRegion)) o hval
      rcases hfetch : fetchCsvToTemp fs win32 tmpdir now u
          (some (cfgTrimOrEmpty cfg.awsProfile)) (some (cfgTrimOrEmpty cfg.awsRegion)) o
        with ⟨fs1, res, evs1⟩
      rw [hfetch] at htr
      simp only at htr
      rcases hin with rfl | rfl <;>
        (refine ⟨buildEnvExtras (some (cfgTrimOrEmpty cfg.awsProfile))
            (some (cfgTrimOrEmpty cfg.awsRegion)), ?_⟩;
          cases res <;> simp [openCsvFromS3, hc, hu, hfetch, htr])

theorem claim_C4_witness :
    Event.showInputBox ∉ (openCsvFromS3 (fun _ => none) false {} (some "s3://b/x.csv")
        none "/tmp" 1 (TransferOutcome.exited [] "" (some 0))).2 ∧
    ∃ env, Event.spawn (awsCmdName false) (awsCpArgs "s3://b/x.csv") env ∈
      (openCsvFromS3 (fun _ => none) false {} (some "s3://b/x.csv")
        none "/tmp" 1 (TransferOutcome.exited [] "" (some 0))).2 :=
  (claim_C4 (fun _ => none) false {} none "/tmp" 1
      (TransferOutcome.exited [] "" (some 0))).1
    "s3://b/x.csv" (by decide) (by decide)

/-- C5: cancelling any interactive step returns the flow to idle with no
message, no further discovery call and no transfer: (i) cancelling the
URI text entry makes `openCsvFromS3` return with only the input-box event
in its trace and the filesystem untouched; (ii) cancelling the bucket
QuickPick makes `pickAndOpenS3File` return after the bucket listing and
bucket picker only — in particular the key listing (`listKeys`) is never
invoked; (iii) cancelling the key QuickPick returns after the two
listings and two pickers, with no transfer spawned and no error shown. -/
theorem claim_C5 (fs : Fs) (win32 : Bool) (cfg : Config) (tmpdir : String)
    (now : Nat) (o : TransferOutcome) (uriIn : Option String)
    (bs : List String) (b : String)
    (objRes : Except String ListObjectsResponse) (kp : Option String)
    (resp : ListObjectsResponse) :
    ((uriIn = none ∨ uriIn = some "") → cfgTrimOrEmpty cfg.s3Uri = "" →
      openCsvFromS3 fs win32 cfg uriIn none tmpdir now o =
        (fs, [Event.showInputBox])) ∧
    (pickAndOpenS3File fs win32 cfg tmpdir now (Except.ok bs) none objRes kp o =
      (fs, [Event.execFileCall (awsCmdName win32) listBucketsArgs
              (buildEnvExtras (cfg.awsProfile.map trimData) (cfg.awsRegion.map trimData)),
            Event.showQuickPick bs "Select an S3 bucket"])) ∧
    (pickAndOpenS3File fs win32 cfg tmpdir now (Except.ok bs) (some b)
        (Except.ok resp) none o =
      (fs, [Event.execFileCall (awsCmdName win32) listBucketsArgs
              (buildEnvExtras (cfg.awsProfile.map trimData) (cfg.awsRegion.map trimData)),
            Event.showQuickPick bs "Select an S3 bucket",
            Event.execFileCall (awsCmdName win32) (listObjectsArgs b)
              (buildEnvExtras (cfg.awsProfile.map trimData) (cfg.awsRegion.map trimData)),
            Event.showQuickPick (listKeysOf resp) ("Select file from " ++ b)])) := by
  refine ⟨?_, ?_, ?_⟩
  · intro hin hc
    rcases hin with rfl | rfl <;> simp [openCsvFromS3, hc]
  · simp [pickAndOpenS3File]
  · simp [pickAndOpenS3File]

theorem claim_C5_witness :
    openCsvFromS3 (fun _ => none) false {} none none "/tmp" 1
        (TransferOutcome.exited [] "" (some 0)) =
      ((fun _ => none), [Event.showInputBox]) ∧
    pickAndOpenS3File (fun _ => none) false {} "/tmp" 1
        (Except.ok ["a", "b"]) none (Except.ok { Contents := none }) none
        (TransferOutcome.exited [] "" (some 0)) =
      ((fun _ => none), [Event.execFileCall (awsCmdName false) listBucketsArgs
          (buildEnvExtras ((none : Option String).map trimData)
            ((none : Option String).map trimData)),
        Event.showQuickPick ["a", "b"] "Select an S3 bucket"]) :=
  ⟨(claim_C5 (fun _ => none) false {} "/tmp" 1 (TransferOutcome.exited [] "" (some 0))
      none ["a", "b"] "b" (Except.ok { Contents := none }) none
      { Contents := none }).1 (Or.inl rfl) rfl,
   (claim_C5 (fun _ => none) false {} "/tmp" 1 (TransferOutcome.exited [] "" (some 0))
      none ["a", "b"] "b" (Except.ok { Contents := none }) none
      { Contents := none }).2.1⟩

/-- C7 counterexample: with `autoOpenOnStartup` enabled and a configured
URI, a failing transfer during the startup run *does* surface an error
message to the user — `openCsvFromS3` catches the failure and calls
`showErrorMessage` before the startup hook's `.catch(() => given)` could
swallow anything — refuting the claim that startup errors are silent. -/
theorem claim_C7_counterexample :
    Event.showErrorMessage "Failed to load CSV. AWS CLI exited with code 2: denied"
      ∈ (activate (fun _ => none) false
          { s3Uri := some "s3://b/x.csv", autoOpenOnStartup := some true }
          none "/tmp" 1 (TransferOutcome.exited [] "denied" (some 2))).2 := by
  decide

/-- C7 (amended): when the startup flag is set, activation registers the
command and runs `openCsvFromS3` exactly once; activation itself always
completes (the startup hook discards the promise's rejection), but any
failure inside the run is reported through the command's own error
handling — an error message is shown, not swallowed silently. -/
theorem claim_C7_amended (fs : Fs) (win32 : Bool) (cfg : Config)
    (ib : Option String) (tmpdir : String) (now : Nat) (o : TransferOutcome)
    (hauto : cfg.autoOpenOnStartup = some true) :
    activate fs win32 cfg ib tmpdir now o =
      ((openCsvFromS3 fs win32 cfg none ib tmpdir now o).1,
        Event.registerCommand "s3CsvViewer.openCsvFromS3" ::
          (openCsvFromS3 fs win32 cfg none ib tmpdir now o).2) := by
  rcases ho : openCsvFromS3 fs win32 cfg none ib tmpdir now o with ⟨fs1, evs⟩
  simp [activate, hauto, ho]

theorem claim_C7_witness :
    activate (fun _ => none) false { autoOpenOnStartup := some true } none "/tmp" 1
        (TransferOutcome.exited [] "" (some 0)) =
      ((openCsvFromS3 (fun _ => none) false { autoOpenOnStartup := some true }
          none none "/tmp" 1 (TransferOutcome.exited [] "" (some 0))).1,
        Event.registerCommand "s3CsvViewer.openCsvFromS3" ::
          (openCsvFromS3 (fun _ => none) false { autoOpenOnStartup := some true }
            none none "/tmp" 1 (TransferOutcome.exited [] "" (some 0))).2) :=
  claim_C7_amended (fun _ => none) false { autoOpenOnStartup := some true }
    none "/tmp" 1 (TransferOutcome.exited [] "" (some 0)) rfl

/-- C9: a key listing that succeeds with zero entries (the decoded
response has no `Contents` field) yields the empty key sequence, and the
discovery flow does not fail: it proceeds to the (empty) key picker with
no error message shown and the filesystem untouched. -/
theorem claim_C9 (fs : Fs) (win32 : Bool) (cfg : Config) (tmpdir : String)
    (now : Nat) (bs : List String) (b : String) (o : TransferOutcome) :
    listKeysOf { Contents := none } = [] ∧
    pickAndOpenS3File fs win32 cfg tmpdir now (Except.ok bs) (some b)
        (Except.ok { Contents := none }) none o =
      (fs, [Event.execFileCall (awsCmdName win32) listBucketsArgs
              (buildEnvExtras (cfg.awsProfile.map trimData) (cfg.awsRegion.map trimData)),
            Event.showQuickPick bs "Select an S3 bucket",
            Event.execFileCall (awsCmdName win32) (listObjectsArgs b)
              (buildEnvExtras (cfg.awsProfile.map trimData) (cfg.awsRegion.map trimData)),
            Event.showQuickPick [] ("Select file from " ++ b)]) := by
  refine ⟨rfl, ?_⟩
  simp [pickAndOpenS3File, listKeysOf]

end S3CsvViewer
